import Mathlib

/-!
Verification of the transaction-consistency logic of the expense-frontend
dashboard.  The definitions below are shallow embeddings of the client-side
handlers in `src/app/page.tsx`, `src/app/refunds/page.tsx`, the categories
context (`getFirstCategoryByType`) and the API client (`deleteTransaction`
and `deleteTransactionCascade`).  Currency amounts are modelled as `Rat`
(JS decimal numbers), entity ids as `Nat`, nullable/optional fields as
`Option`, and handlers that validate before issuing a network call as
functions into `Except e a`: `.error` means the handler showed an inline
error and returned without touching the network, `.ok` carries the exact
request payload the handler would send.
-/

namespace ExpenseFrontend

/-- The `type` field of a transaction
(`'expense' | 'income' | 'investment' | 'transfer' | 'refund'`). -/
inductive TxType where
  | expense
  | income
  | investment
  | transfer
  | refund
deriving DecidableEq, Repr

/-- `Category` from `lib/types.ts` (fields without invariants omitted:
timestamps).  The TS type restricts `type` to
`expense | income | investment`; the handlers only ever compare it. -/
structure Category where
  id : Nat
  name : String
  type : TxType
deriving DecidableEq, Repr

/-- `BankAccount` from `lib/types.ts`, restricted to the fields the
verified handlers read. -/
structure BankAccount where
  id : Nat
  name : String
deriving DecidableEq, Repr

/-- `Transaction` from `lib/types.ts` plus the
`destination_bank_account_id` field that `app/page.tsx` reads on it. -/
structure Transaction where
  id : Nat
  transaction_id : Option String
  amount : Rat
  type : TxType
  bank_account_id : Nat
  destination_bank_account_id : Option Nat
  category_id : Option Nat
  category : Option Category
  parent_transaction_id : Option Nat
  description : Option String
  date : String
deriving DecidableEq, Repr

/-- `RefundChildInput` from `lib/types.ts`: one child line item of a
refund group. -/
structure RefundChildInput where
  transaction_id : Option String
  amount : Rat
  category_id : Nat
  description : Option String
  date : Option String
deriving DecidableEq, Repr

/-! ## Refund balance calculator (`app/refunds/page.tsx`) -/

/-- `childrenSum` memo of `app/refunds/page.tsx`:
`children.reduce((acc, c) => acc + Number(c.amount || 0), 0)`. -/
def childrenSum (children : List RefundChildInput) : Rat :=
  children.foldl (fun acc c => acc + c.amount) 0

/-- `remaining` memo of `app/refunds/page.tsx`:
`Number(parentAmount) - Number(childrenSum)`. -/
def remainingOf (parentAmount : Rat) (children : List RefundChildInput) : Rat :=
  parentAmount - childrenSum children

/-- The tri-state verdict shown by the live validation bar. -/
inductive Verdict where
  | balanced
  | underfilled
  | overfilled
deriving DecidableEq, Repr

/-- Verdict displayed by the validation bar of `app/refunds/page.tsx`:
`remaining === 0 ? 'Balanced' : remaining > 0 ? 'Remaining …' : 'Over by …'`. -/
def verdictOf (remaining : Rat) : Verdict :=
  if remaining = 0 then .balanced
  else if remaining > 0 then .underfilled
  else .overfilled

/-- Result of the balance computation: the two memos plus the displayed
verdict. -/
structure BalanceResult where
  childrenSum : Rat
  remaining : Rat
  verdict : Verdict
deriving DecidableEq, Repr

/-- The refund balance calculator: `childrenSum`/`remaining` memos and the
verdict rendering of `app/refunds/page.tsx` packaged as one function. -/
def balance (parentAmount : Rat) (children : List RefundChildInput) : BalanceResult :=
  { childrenSum := childrenSum children
    remaining := remainingOf parentAmount children
    verdict := verdictOf (remainingOf parentAmount children) }

theorem childrenSum_foldl (children : List RefundChildInput) (a : Rat) :
    children.foldl (fun acc c => acc + c.amount) a =
      a + (children.map (fun c => c.amount)).sum := by
  induction children generalizing a with
  | nil => simp
  | cons c cs ih =>
    simp only [List.foldl_cons, List.map_cons, List.sum_cons, ih]
    ring

theorem childrenSum_eq_sum (children : List RefundChildInput) :
    childrenSum children = (children.map (fun c => c.amount)).sum := by
  simpa using childrenSum_foldl children 0

theorem verdictOf_balanced_iff (r : Rat) : verdictOf r = .balanced ↔ r = 0 := by
  unfold verdictOf
  rcases lt_trichotomy r 0 with h | h | h
  · simp [ne_of_lt h, not_lt.mpr (le_of_lt h)]
  · simp [h]
  · simp [ne_of_gt h, h]

theorem verdictOf_underfilled_iff (r : Rat) : verdictOf r = .underfilled ↔ r > 0 := by
  unfold verdictOf
  rcases lt_trichotomy r 0 with h | h | h
  · simp [ne_of_lt h, not_lt.mpr (le_of_lt h), h]
  · simp [h]
  · simp [ne_of_gt h, h]

theorem verdictOf_overfilled_iff (r : Rat) : verdictOf r = .overfilled ↔ r < 0 := by
  unfold verdictOf
  rcases lt_trichotomy r 0 with h | h | h
  · simp [ne_of_lt h, not_lt.mpr (le_of_lt h), h]
  · simp [h]
  · simp [ne_of_gt h, h, not_lt.mpr (le_of_lt h)]

/-- Claim C1: for every parent amount and finite children list, the balance
computation returns `childrenSum` equal to the sum of the children's
amounts and `remaining = parentAmount - childrenSum`; the verdict is
`balanced` exactly when `remaining = 0`, `underfilled` exactly when
`remaining > 0`, `overfilled` exactly when `remaining < 0`; and on the
empty list `remaining` equals the parent amount. -/
theorem refund_balance_correct (parentAmount : Rat) (children : List RefundChildInput) :
    (balance parentAmount children).childrenSum = (children.map (fun c => c.amount)).sum ∧
    (balance parentAmount children).remaining =
      parentAmount - (balance parentAmount children).childrenSum ∧
    ((balance parentAmount children).verdict = .balanced ↔
      (balance parentAmount children).remaining = 0) ∧
    ((balance parentAmount children).verdict = .underfilled ↔
      (balance parentAmount children).remaining > 0) ∧
    ((balance parentAmount children).verdict = .overfilled ↔
      (balance parentAmount children).remaining < 0) ∧
    (balance parentAmount ([] : List RefundChildInput)).remaining = parentAmount := by
  refine ⟨childrenSum_eq_sum children, rfl, ?_, ?_, ?_, ?_⟩
  · exact verdictOf_balanced_iff _
  · exact verdictOf_underfilled_iff _
  · exact verdictOf_overfilled_iff _
  · simp [balance, remainingOf, childrenSum]

/-! ## Refund submission guards (`onSubmit` / `handleSaveGroup`) -/

/-- The client-side validation failures of a refund create/update
submission (`'Add at least one refund item'` /
`'Children sum must equal the parent amount'`). -/
inductive RefundSubmitError where
  | noChildren
  | unbalanced
deriving DecidableEq, Repr

/-- `RefundCreateRequest` from `lib/types.ts`: the payload sent by
`createRefund` / `updateRefund`. -/
structure RefundCreateRequest where
  transaction_id : Option String
  amount : Rat
  bank_account_id : Nat
  description : Option String
  children : List RefundChildInput
deriving DecidableEq, Repr

/-- A per-group edit draft (`RefundDraft` in `app/refunds/page.tsx`). -/
structure RefundDraft where
  transaction_id : Option String
  amount : Rat
  bank_account_id : Nat
  description : Option String
  children : List RefundChildInput
deriving DecidableEq, Repr

/-- `onSubmit` of `app/refunds/page.tsx` up to the network call: rejects an
empty children list, then a nonzero remaining balance, and otherwise
returns the `createRefund` payload. -/
def onSubmit (amount : Rat) (bank_account_id : Nat) (transaction_id : Option String)
    (description : Option String) (children : List RefundChildInput) :
    Except RefundSubmitError RefundCreateRequest :=
  if children.length = 0 then .error .noChildren
  else if remainingOf amount children ≠ 0 then .error .unbalanced
  else .ok ⟨transaction_id, amount, bank_account_id, description, children⟩

/-- `handleSaveGroup` of `app/refunds/page.tsx` up to the network call: the
same guards computed on the group's edit draft, returning the
`updateRefund` payload. -/
def handleSaveGroup (draft : RefundDraft) : Except RefundSubmitError RefundCreateRequest :=
  let remaining := draft.amount - draft.children.foldl (fun sum c => sum + c.amount) 0
  if draft.children.length = 0 then .error .noChildren
  else if remaining ≠ 0 then .error .unbalanced
  else .ok ⟨draft.transaction_id, draft.amount, draft.bank_account_id,
            draft.description, draft.children⟩

/-- Claim C2: a refund create or update submission fails client-side (no
network call) exactly when the children list is empty or the remaining
balance is nonzero, and the create/update request is issued exactly when
there is at least one child and the group is exactly balanced. -/
theorem refund_submission_guard (amount : Rat) (bank_account_id : Nat)
    (transaction_id : Option String) (description : Option String)
    (children : List RefundChildInput) (draft : RefundDraft) :
    ((∃ e, onSubmit amount bank_account_id transaction_id description children = .error e) ↔
      children = [] ∨ remainingOf amount children ≠ 0) ∧
    ((∃ req, onSubmit amount bank_account_id transaction_id description children = .ok req) ↔
      1 ≤ children.length ∧ remainingOf amount children = 0) ∧
    ((∃ e, handleSaveGroup draft = .error e) ↔
      draft.children = [] ∨ remainingOf draft.amount draft.children ≠ 0) ∧
    ((∃ req, handleSaveGroup draft = .ok req) ↔
      1 ≤ draft.children.length ∧ remainingOf draft.amount draft.children = 0) := by
  have hsave : handleSaveGroup draft =
      if draft.children.length = 0 then .error .noChildren
      else if remainingOf draft.amount draft.children ≠ 0 then .error .unbalanced
      else .ok ⟨draft.transaction_id, draft.amount, draft.bank_account_id,
                draft.description, draft.children⟩ := by
    simp [handleSaveGroup, remainingOf, childrenSum]
  constructor
  · unfold onSubmit
    constructor
    · rintro ⟨e, he⟩
      by_cases h0 : children.length = 0
      · exact Or.inl (List.length_eq_zero.mp h0)
      · by_cases hr : remainingOf amount children ≠ 0
        · exact Or.inr hr
        · simp [h0, hr] at he
    · rintro (h | h)
      · exact ⟨.noChildren, by simp [h]⟩
      · by_cases h0 : children.length = 0
        · exact ⟨.noChildren, by simp [h0]⟩
        · exact ⟨.unbalanced, by simp [h0, h]⟩
  constructor
  · unfold onSubmit
    constructor
    · rintro ⟨req, hreq⟩
      by_cases h0 : children.length = 0
      · simp [h0] at hreq
      · by_cases hr : remainingOf amount children ≠ 0
        · simp [h0, hr] at hreq
        · exact ⟨Nat.one_le_iff_ne_zero.mpr h0, not_not.mp hr⟩
    · rintro ⟨hlen, hr⟩
      have h0 : ¬ children.length = 0 := Nat.one_le_iff_ne_zero.mp hlen
      exact ⟨⟨transaction_id, amount, bank_account_id, description, children⟩,
        by simp [h0, hr]⟩
  constructor
  · rw [hsave]
    constructor
    · rintro ⟨e, he⟩
      by_cases h0 : draft.children.length = 0
      · exact Or.inl (List.length_eq_zero.mp h0)
      · by_cases hr : remainingOf draft.amount draft.children ≠ 0
        · exact Or.inr hr
        · simp [h0, hr] at he
    · rintro (h | h)
      · exact ⟨.noChildren, by simp [h]⟩
      · by_cases h0 : draft.children.length = 0
        · exact ⟨.noChildren, by simp [h0]⟩
        · exact ⟨.unbalanced, by simp [h0, h]⟩
  · rw [hsave]
    constructor
    · rintro ⟨req, hreq⟩
      by_cases h0 : draft.children.length = 0
      · simp [h0] at hreq
      · by_cases hr : remainingOf draft.amount draft.children ≠ 0
        · simp [h0, hr] at hreq
        · exact ⟨Nat.one_le_iff_ne_zero.mpr h0, not_not.mp hr⟩
    · rintro ⟨hlen, hr⟩
      have h0 : ¬ draft.children.length = 0 := Nat.one_le_iff_ne_zero.mp hlen
      exact ⟨⟨draft.transaction_id, draft.amount, draft.bank_account_id,
        draft.description, draft.children⟩, by simp [h0, hr]⟩

/-! ## Category/Type matcher (`CategoriesContext.getFirstCategoryByType`) -/

/-- Insert a category into a list sorted ascending by `id`; building block
of the embedding of JS `sort((a, b) => a.id - b.id)`. -/
def insertById (c : Category) : List Category → List Category
  | [] => [c]
  | d :: ds => if c.id ≤ d.id then c :: d :: ds else d :: insertById c ds

/-- Sort a category list ascending by `id`
(JS `sort((a, b) => a.id - b.id)`). -/
def sortById : List Category → List Category
  | [] => []
  | c :: cs => insertById c (sortById cs)

/-- `getCategoriesByType` of the categories context:
`categories.filter(cat => cat.type === type).sort((a, b) => a.id - b.id)`. -/
def getCategoriesByType (categories : List Category) (t : TxType) : List Category :=
  sortById (categories.filter (fun cat => decide (cat.type = t)))

/-- `getFirstCategoryByType` of the categories context: the first element
of the sorted admissible list, or `none` when the list is empty. -/
def getFirstCategoryByType (categories : List Category) (t : TxType) : Option Category :=
  (getCategoriesByType categories t).head?

/-- The head of `sortById l` is a member of `l` of minimal `id`. -/
theorem sortById_head_min :
    ∀ l : List Category, l ≠ [] →
      ∃ h t, sortById l = h :: t ∧ h ∈ l ∧ ∀ x ∈ l, h.id ≤ x.id := by
  intro l
  induction l with
  | nil => intro h; exact absurd rfl h
  | cons c cs ih =>
    intro _
    by_cases hcs : cs = []
    · subst hcs
      exact ⟨c, [], rfl, List.mem_singleton.mpr rfl, by
        intro x hx
        rw [List.mem_singleton.mp hx]⟩
    · obtain ⟨h, t, heq, hmem, hmin⟩ := ih hcs
      show ∃ h' t', insertById c (sortById cs) = h' :: t' ∧ _
      rw [heq]
      by_cases hle : c.id ≤ h.id
      · refine ⟨c, h :: t, by simp [insertById, hle], List.mem_cons_self c cs, ?_⟩
        intro x hx
        rcases List.mem_cons.mp hx with hx | hx
        · rw [hx]
        · exact le_trans hle (hmin x hx)
      · refine ⟨h, insertById c t, by simp [insertById, hle],
          List.mem_cons_of_mem c hmem, ?_⟩
        intro x hx
        rcases List.mem_cons.mp hx with hx | hx
        · rw [hx]; exact le_of_not_le hle
        · exact hmin x hx

/-- `sortById` of a nonempty list is nonempty, so `head?` is `some`. -/
theorem getFirstCategoryByType_eq_none (categories : List Category) (t : TxType) :
    getFirstCategoryByType categories t = none ↔
      ∀ c ∈ categories, c.type ≠ t := by
  unfold getFirstCategoryByType getCategoriesByType
  constructor
  · intro hnone c hc hct
    have hmem : c ∈ categories.filter (fun cat => decide (cat.type = t)) :=
      List.mem_filter.mpr ⟨hc, by simp [hct]⟩
    have hne : categories.filter (fun cat => decide (cat.type = t)) ≠ [] := by
      intro hnil; rw [hnil] at hmem; exact List.not_mem_nil c hmem
    obtain ⟨h, tl, heq, _, _⟩ := sortById_head_min _ hne
    rw [heq] at hnone
    exact Option.noConfusion hnone
  · intro hall
    have hnil : categories.filter (fun cat => decide (cat.type = t)) = [] := by
      rw [List.filter_eq_nil_iff]
      intro c hc
      simp [hall c hc]
    rw [hnil]
    rfl

/-! ## Transaction type change (`handleTypeChange` of `app/page.tsx`) -/

/-- Client-side failures of the type-change dropdown. -/
inductive TypeChangeError where
  | unsupportedDirectTransition
  | noCategoryAvailable
deriving DecidableEq, Repr

/-- `UpdateTransactionRequest` restricted to the fields the verified
handlers ever put in a payload; `none` means the field is absent from the
JSON body. -/
structure UpdateTransactionRequest where
  type : Option TxType
  category_id : Option Nat
  destination_bank_account_id : Option Nat
deriving DecidableEq, Repr

/-- `handleTypeChange` of `app/page.tsx` up to the network call: rejects
`transfer`/`refund`, resolves the first category of the new type, and
builds the `{type, category_id}` payload (no destination field). -/
def handleTypeChange (newType : TxType) (categories : List Category) :
    Except TypeChangeError UpdateTransactionRequest :=
  if newType = .transfer ∨ newType = .refund then
    .error .unsupportedDirectTransition
  else
    match getFirstCategoryByType categories newType with
    | none => .error .noCategoryAvailable
    | some firstCategory =>
        .ok ⟨some newType, some firstCategory.id, none⟩

/-- Claim C3: `handleTypeChange` rejects `transfer` and `refund` outright;
otherwise it fails with a no-category error when no category of the new
type exists; otherwise the payload is exactly
`{type := newType, category_id := c.id}` for the lowest-id admissible
category `c`, with no destination-bank-account field. -/
theorem changeType_correct (newType : TxType) (categories : List Category) :
    ((newType = .transfer ∨ newType = .refund) →
      handleTypeChange newType categories = .error .unsupportedDirectTransition) ∧
    (newType ≠ .transfer → newType ≠ .refund →
      (∀ c ∈ categories, c.type ≠ newType) →
      handleTypeChange newType categories = .error .noCategoryAvailable) ∧
    (∀ c : Category, newType ≠ .transfer → newType ≠ .refund →
      c ∈ categories → c.type = newType →
      (∀ d ∈ categories, d.type = newType → c.id ≤ d.id) →
      handleTypeChange newType categories =
        .ok ⟨some newType, some c.id, none⟩) := by
  refine ⟨?_, ?_, ?_⟩
  · intro h
    simp [handleTypeChange, h]
  · intro h1 h2 hall
    have hor : ¬ (newType = .transfer ∨ newType = .refund) := by
      rintro (h | h) <;> [exact h1 h; exact h2 h]
    rw [handleTypeChange, if_neg hor,
      (getFirstCategoryByType_eq_none categories newType).mpr hall]
  · intro c h1 h2 hmem hct hmin
    have hor : ¬ (newType = .transfer ∨ newType = .refund) := by
      rintro (h | h) <;> [exact h1 h; exact h2 h]
    have hfmem : c ∈ categories.filter (fun cat => decide (cat.type = newType)) :=
      List.mem_filter.mpr ⟨hmem, by simp [hct]⟩
    have hne : categories.filter (fun cat => decide (cat.type = newType)) ≠ [] := by
      intro hnil; rw [hnil] at hfmem; exact List.not_mem_nil c hfmem
    obtain ⟨h, tl, heq, hhmem, hhmin⟩ := sortById_head_min _ hne
    have hhf := List.mem_filter.mp hhmem
    have hhid : h.id = c.id :=
      le_antisymm (hhmin c hfmem)
        (hmin h hhf.1 (by simpa using hhf.2))
    rw [handleTypeChange, if_neg hor]
    unfold getFirstCategoryByType getCategoriesByType
    rw [heq]
    simp [hhid]

/-- Witness for Claim C3 (spec Scenario B): changing to `income` with
income categories of ids 1 and 9 yields the payload
`{type := income, category_id := 1}` with no destination field. -/
theorem changeType_correct_witness :
    handleTypeChange TxType.income
      [⟨1, "salary", TxType.income⟩, ⟨9, "bonus", TxType.income⟩] =
      .ok ⟨some TxType.income, some 1, none⟩ :=
  (changeType_correct TxType.income
      [⟨1, "salary", TxType.income⟩, ⟨9, "bonus", TxType.income⟩]).2.2
    ⟨1, "salary", TxType.income⟩ (by decide) (by decide) (by decide) (by decide)
    (by decide)

/-! ## Convert to refund (`handleConvertToRefund` of `app/page.tsx`) -/

/-- Client-side failures of the convert-to-refund action
(`'Cannot convert refunds to refunds'`, `'Cannot convert transactions with
a parent'`, `'No expense categories available'`). -/
inductive ConvertToRefundError where
  | refundToRefund
  | hasParent
  | noExpenseCategories
deriving DecidableEq, Repr

/-- Body of `convertTransactionToRefund`'s request: the seeded children
list. -/
structure ConvertToRefundRequest where
  children : List RefundChildInput
deriving DecidableEq, Repr

/-- JS `s || dflt` on an optional string: the default replaces both a
missing and an empty string. -/
def jsStringOr (s : Option String) (dflt : String) : String :=
  match s with
  | none => dflt
  | some str => if str = "" then dflt else str

/-- `handleConvertToRefund` of `app/page.tsx` up to the network call:
rejects refunds and child transactions, requires an expense category, and
seeds a single child carrying the whole transaction amount, the lowest-id
expense category, and the description defaulted to `"Refund item"`. -/
def handleConvertToRefund (transaction : Transaction) (categories : List Category) :
    Except ConvertToRefundError ConvertToRefundRequest :=
  if transaction.type = .refund then .error .refundToRefund
  else if transaction.parent_transaction_id ≠ none then .error .hasParent
  else
    match (sortById (categories.filter (fun cat => decide (cat.type = .expense)))).head? with
    | none => .error .noExpenseCategories
    | some firstExpenseCategory =>
        .ok ⟨[⟨none, transaction.amount, firstExpenseCategory.id,
              some (jsStringOr transaction.description "Refund item"), none⟩]⟩

/-- Claim C4: `handleConvertToRefund` succeeds exactly when the transaction
is not a refund, has no parent, and an expense category exists; the
produced request has a single seeded child with the full amount, the
lowest-id expense category and the defaulted description; and the balance
computation on the produced group is always `balanced`. -/
theorem convertToRefund_correct (transaction : Transaction) (categories : List Category) :
    ((∃ req, handleConvertToRefund transaction categories = .ok req) ↔
      transaction.type ≠ .refund ∧ transaction.parent_transaction_id = none ∧
        ∃ c ∈ categories, c.type = .expense) ∧
    (∀ c : Category, transaction.type ≠ .refund →
      transaction.parent_transaction_id = none →
      c ∈ categories → c.type = .expense →
      (∀ d ∈ categories, d.type = .expense → c.id ≤ d.id) →
      handleConvertToRefund transaction categories =
        .ok ⟨[⟨none, transaction.amount, c.id,
              some (jsStringOr transaction.description "Refund item"), none⟩]⟩) ∧
    (∀ req, handleConvertToRefund transaction categories = .ok req →
      (balance transaction.amount req.children).verdict = .balanced) ∧
    (∀ req, handleConvertToRefund transaction categories = .ok req →
      transaction.description = none →
      ∃ child, req.children = [child] ∧ child.amount = transaction.amount ∧
        child.description = some "Refund item") := by
  have hok : ∀ req, handleConvertToRefund transaction categories = .ok req →
      transaction.type ≠ .refund ∧ transaction.parent_transaction_id = none ∧
      ∃ fc, (sortById (categories.filter (fun cat => decide (cat.type = .expense)))).head?
          = some fc ∧
        req = ⟨[⟨none, transaction.amount, fc.id,
          some (jsStringOr transaction.description "Refund item"), none⟩]⟩ := by
    intro req hreq
    unfold handleConvertToRefund at hreq
    by_cases h1 : transaction.type = .refund
    · simp [h1] at hreq
    · by_cases h2 : transaction.parent_transaction_id ≠ none
      · simp [h1, h2] at hreq
      · rw [if_neg h1, if_neg h2] at hreq
        rcases hhead : (sortById (categories.filter
            (fun cat => decide (cat.type = .expense)))).head? with _ | fc
        · rw [hhead] at hreq; exact Except.noConfusion hreq
        · rw [hhead] at hreq
          exact ⟨h1, not_not.mp h2, fc, rfl, (Except.ok.injEq _ _).mp hreq.symm⟩
  refine ⟨⟨?_, ?_⟩, ?_, ?_, ?_⟩
  · rintro ⟨req, hreq⟩
    obtain ⟨h1, h2, fc, hhead, _⟩ := hok req hreq
    refine ⟨h1, h2, ?_⟩
    have hne : categories.filter (fun cat => decide (cat.type = .expense)) ≠ [] := by
      intro hnil
      rw [show sortById (categories.filter (fun cat => decide (cat.type = .expense)))
            = [] by rw [hnil]; rfl] at hhead
      exact Option.noConfusion hhead
    obtain ⟨h, tl, heq, hhmem, _⟩ := sortById_head_min _ hne
    have hf := List.mem_filter.mp hhmem
    exact ⟨h, hf.1, by simpa using hf.2⟩
  · rintro ⟨h1, h2, c, hmem, hct⟩
    have hfmem : c ∈ categories.filter (fun cat => decide (cat.type = .expense)) :=
      List.mem_filter.mpr ⟨hmem, by simp [hct]⟩
    have hne : categories.filter (fun cat => decide (cat.type = .expense)) ≠ [] := by
      intro hnil; rw [hnil] at hfmem; exact List.not_mem_nil c hfmem
    obtain ⟨h, tl, heq, _, _⟩ := sortById_head_min _ hne
    refine ⟨⟨[⟨none, transaction.amount, h.id,
      some (jsStringOr transaction.description "Refund item"), none⟩]⟩, ?_⟩
    unfold handleConvertToRefund
    rw [if_neg h1, if_neg (not_not.mpr h2), heq]
    rfl
  · intro c h1 h2 hmem hct hmin
    have hfmem : c ∈ categories.filter (fun cat => decide (cat.type = .expense)) :=
      List.mem_filter.mpr ⟨hmem, by simp [hct]⟩
    have hne : categories.filter (fun cat => decide (cat.type = .expense)) ≠ [] := by
      intro hnil; rw [hnil] at hfmem; exact List.not_mem_nil c hfmem
    obtain ⟨h, tl, heq, hhmem, hhmin⟩ := sortById_head_min _ hne
    have hhf := List.mem_filter.mp hhmem
    have hhid : h.id = c.id :=
      le_antisymm (hhmin c hfmem) (hmin h hhf.1 (by simpa using hhf.2))
    unfold handleConvertToRefund
    rw [if_neg h1, if_neg (not_not.mpr h2), heq]
    simp [hhid]
  · intro req hreq
    obtain ⟨_, _, fc, _, hreqeq⟩ := hok req hreq
    subst hreqeq
    have hrem : remainingOf transaction.amount
        [⟨none, transaction.amount, fc.id,
          some (jsStringOr transaction.description "Refund item"), none⟩] = 0 := by
      simp [remainingOf, childrenSum]
    simp [balance, hrem, verdictOf]
  · intro req hreq hdescr
    obtain ⟨_, _, fc, _, hreqeq⟩ := hok req hreq
    subst hreqeq
    exact ⟨_, rfl, rfl, by simp [jsStringOr, hdescr]⟩

/-- Witness for Claim C4: converting an expense of amount 75 with a single
expense category of id 2 produces the one-child request whose balance is
`balanced`. -/
theorem convertToRefund_correct_witness :
    handleConvertToRefund
      ⟨7, none, (75 : Rat), TxType.expense, 1, none, some 2, none, none, none, "2024-01-02"⟩
      [⟨2, "food", TxType.expense⟩] =
      .ok ⟨[⟨none, (75 : Rat), 2, some "Refund item", none⟩]⟩ :=
  (convertToRefund_correct
      ⟨7, none, (75 : Rat), TxType.expense, 1, none, some 2, none, none, none, "2024-01-02"⟩
      [⟨2, "food", TxType.expense⟩]).2.1
    ⟨2, "food", TxType.expense⟩ (by decide) rfl (by decide) (by decide) (by decide)

/-! ## Convert from refund (`handleConvertFromRefund` of `app/page.tsx`) -/

/-- Client-side failures of the convert-from-refund dropdown
(`'Can only convert refund parents'`, `'Cannot convert refund children'`,
`'Need at least 2 bank accounts for transfer'`,
`'No … categories available'`). -/
inductive ConvertFromRefundError where
  | onlyRefundParents
  | cannotConvertChildren
  | insufficientAccounts
  | noCategoryAvailable
deriving DecidableEq, Repr

/-- `handleConvertFromRefund` of `app/page.tsx` up to the network call:
only refund parents may be converted; target `transfer` needs
`bankAccounts.find(acc => acc.id !== transaction.bank_account_id)`, other
targets need a first category of the target type. -/
def handleConvertFromRefund (transaction : Transaction) (targetType : TxType)
    (bankAccounts : List BankAccount) (categories : List Category) :
    Except ConvertFromRefundError UpdateTransactionRequest :=
  if transaction.type ≠ .refund then .error .onlyRefundParents
  else if transaction.parent_transaction_id ≠ none then .error .cannotConvertChildren
  else if targetType = .transfer then
    match bankAccounts.find? (fun acc => decide (acc.id ≠ transaction.bank_account_id)) with
    | none => .error .insufficientAccounts
    | some otherBank => .ok ⟨some .transfer, none, some otherBank.id⟩
  else
    match getFirstCategoryByType categories targetType with
    | none => .error .noCategoryAvailable
    | some firstCategory => .ok ⟨some targetType, some firstCategory.id, none⟩

/-- Counterexample to Claim C5 as stated: for the refund parent whose own
source account id is 2 and the single-account list `[{id := 1}]`, the
conversion to transfer does NOT fail with the insufficient-accounts error;
it succeeds with destination account 1, because the code only requires
some account whose id differs from the transaction's source account. -/
theorem convertFromRefund_single_account_counterexample :
    (⟨10, none, (50 : Rat), TxType.refund, 2, none, none, none, none, none,
        "2024-01-03"⟩ : Transaction).type = TxType.refund ∧
    (⟨10, none, (50 : Rat), TxType.refund, 2, none, none, none, none, none,
        "2024-01-03"⟩ : Transaction).parent_transaction_id = none ∧
    handleConvertFromRefund
      ⟨10, none, (50 : Rat), TxType.refund, 2, none, none, none, none, none, "2024-01-03"⟩
      TxType.transfer [⟨1, "Checking"⟩] [] =
      .ok ⟨some TxType.transfer, none, some 1⟩ := by
  refine ⟨rfl, rfl, ?_⟩
  rfl

/-- Claim C5 (amended): conversion to `transfer` is only legal for a
refund parent (non-refunds and refund children are rejected), and for a
refund parent it fails with the insufficient-accounts error exactly when
no listed bank account has an id different from the transaction's own
`bank_account_id` (so with `accounts = [{id := 1}]` it fails whenever the
parent's source account is account 1). -/
theorem convertFromRefund_insufficient_accounts (transaction : Transaction)
    (bankAccounts : List BankAccount) (categories : List Category) :
    (transaction.type ≠ .refund →
      handleConvertFromRefund transaction TxType.transfer bankAccounts categories =
        .error .onlyRefundParents) ∧
    (transaction.type = .refund → transaction.parent_transaction_id ≠ none →
      handleConvertFromRefund transaction TxType.transfer bankAccounts categories =
        .error .cannotConvertChildren) ∧
    (transaction.type = .refund → transaction.parent_transaction_id = none →
      (handleConvertFromRefund transaction TxType.transfer bankAccounts categories =
          .error .insufficientAccounts ↔
        ∀ acc ∈ bankAccounts, acc.id = transaction.bank_account_id)) := by
  refine ⟨?_, ?_, ?_⟩
  · intro h
    rw [handleConvertFromRefund, if_pos h]
  · intro htype hparent
    rw [handleConvertFromRefund, if_neg (not_not.mpr htype), if_pos hparent]
  · intro htype hparent
    unfold handleConvertFromRefund
    rw [if_neg (not_not.mpr htype), if_neg (not_not.mpr hparent), if_pos rfl]
    rcases hfind : bankAccounts.find?
        (fun acc => decide (acc.id ≠ transaction.bank_account_id)) with _ | acc
    · rw [hfind]
      refine iff_of_true rfl ?_
      intro acc hacc
      have := List.find?_eq_none.mp hfind acc hacc
      simpa using this
    · rw [hfind]
      have hpred := List.find?_some hfind
      have hmem := List.mem_of_find?_eq_some hfind
      refine iff_of_false (fun h => Except.noConfusion h) ?_
      intro hall
      exact (by simpa using hpred : acc.id ≠ transaction.bank_account_id) (hall acc hmem)

/-- Witness for Claim C5 (amended), matching spec Scenario E with the
parent's source account equal to the single listed account: the conversion
fails with the insufficient-accounts error. -/
theorem convertFromRefund_insufficient_accounts_witness :
    handleConvertFromRefund
      ⟨11, none, (50 : Rat), TxType.refund, 1, none, none, none, none, none, "2024-01-03"⟩
      TxType.transfer [⟨1, "Checking"⟩] [] =
      .error ConvertFromRefundError.insufficientAccounts :=
  ((convertFromRefund_insufficient_accounts
      ⟨11, none, (50 : Rat), TxType.refund, 1, none, none, none, none, none, "2024-01-03"⟩
      [⟨1, "Checking"⟩] []).2.2 rfl rfl).mpr (by decide)

/-! ## Bank account change (`handleBankAccountChange` of `app/page.tsx`) -/

/-- Which dropdown triggered the change. -/
inductive BankField where
  | source
  | destination
deriving DecidableEq, Repr

/-- Client-side failures of the bank-account dropdowns
(`'Source bank account is required'`, `'Source and destination bank
accounts cannot be the same'`). -/
inductive BankAccountChangeError where
  | sourceRequired
  | invalidPair
deriving DecidableEq, Repr

/-- The account pair `updateTransactionBankAccounts` would be called
with. -/
structure BankAccountPlan where
  sourceId : Nat
  destId : Option Nat
deriving DecidableEq, Repr

/-- `handleBankAccountChange` of `app/page.tsx` up to the network call:
starts from the transaction's current source/destination pair, applies the
changed field (`source` may not become null), and rejects the update when
the resulting destination is non-null and equal to the resulting
source. -/
def handleBankAccountChange (transaction : Transaction) (field : BankField)
    (newBankAccountId : Option Nat) : Except BankAccountChangeError BankAccountPlan :=
  match field with
  | .source =>
    match newBankAccountId with
    | none => .error .sourceRequired
    | some s =>
      if transaction.destination_bank_account_id = some s then .error .invalidPair
      else .ok ⟨s, transaction.destination_bank_account_id⟩
  | .destination =>
    if newBankAccountId = some transaction.bank_account_id then .error .invalidPair
    else .ok ⟨transaction.bank_account_id, newBankAccountId⟩

/-- Claim C6: a bank-account change whose resulting destination is non-null
and equal to the resulting source is rejected with the invalid-pair error
(no API call); setting the destination to the transaction's current source
account always fails this way; setting the source to null is also
rejected; and every plan that is sent has distinct source and
destination. -/
theorem bankAccountChange_correct (transaction : Transaction) :
    (∀ s : Nat, transaction.destination_bank_account_id = some s →
      handleBankAccountChange transaction .source (some s) = .error .invalidPair) ∧
    (handleBankAccountChange transaction .destination
        (some transaction.bank_account_id) = .error .invalidPair) ∧
    (handleBankAccountChange transaction .source none = .error .sourceRequired) ∧
    (∀ (field : BankField) (newBankAccountId : Option Nat) (plan : BankAccountPlan),
      handleBankAccountChange transaction field newBankAccountId = .ok plan →
      plan.destId ≠ some plan.sourceId) := by
  refine ⟨?_, ?_, rfl, ?_⟩
  · intro s hs
    simp [handleBankAccountChange, hs]
  · simp [handleBankAccountChange]
  · intro field newBankAccountId plan hplan
    cases field with
    | source =>
      cases newBankAccountId with
      | none => exact Except.noConfusion hplan
      | some s =>
        by_cases hd : transaction.destination_bank_account_id = some s
        · simp [handleBankAccountChange, hd] at hplan
        · simp only [handleBankAccountChange, if_neg hd] at hplan
          rw [← (Except.ok.injEq _ _).mp hplan]
          simpa using hd
    | destination =>
      by_cases hd : newBankAccountId = some transaction.bank_account_id
      · simp [handleBankAccountChange, hd] at hplan
      · simp only [handleBankAccountChange, if_neg hd] at hplan
        rw [← (Except.ok.injEq _ _).mp hplan]
        simpa using hd

/-- Witness for Claim C6: on a transfer from account 1 to account 3,
re-pointing the source at account 3 is rejected with the invalid-pair
error. -/
theorem bankAccountChange_correct_witness :
    handleBankAccountChange
      ⟨21, none, (5 : Rat), TxType.transfer, 1, some 3, none, none, none, none, "2024-01-04"⟩
      BankField.source (some 3) = .error BankAccountChangeError.invalidPair :=
  (bankAccountChange_correct
      ⟨21, none, (5 : Rat), TxType.transfer, 1, some 3, none, none, none, none,
        "2024-01-04"⟩).1 3 rfl

/-! ## Category change (`handleCategoryChange` of `app/page.tsx`) -/

/-- Client-side failures of the category dropdown (`'Invalid category
selected'`, the two type-mismatch messages). -/
inductive CategoryChangeError where
  | invalidCategory
  | typeMismatch
deriving DecidableEq, Repr

/-- The category type a transaction of type `t` must use: `expense` for
refunds (refund children), otherwise `t` itself. -/
def requiredCategoryType (t : TxType) : TxType :=
  if t = .refund then .expense else t

/-- `handleCategoryChange` of `app/page.tsx` up to the network call: looks
up the selected category, enforces the type-match rule (refunds must use
an expense category), and on success returns the locally patched
transaction `{...tx, category_id, category}`. -/
def handleCategoryChange (categories : List Category) (transaction : Transaction)
    (newCategoryId : Nat) : Except CategoryChangeError Transaction :=
  match categories.find? (fun cat => decide (cat.id = newCategoryId)) with
  | none => .error .invalidCategory
  | some selectedCategory =>
    if transaction.type = .refund then
      if selectedCategory.type ≠ .expense then .error .typeMismatch
      else .ok { transaction with
                  category_id := some newCategoryId, category := some selectedCategory }
    else
      if selectedCategory.type ≠ transaction.type then .error .typeMismatch
      else .ok { transaction with
                  category_id := some newCategoryId, category := some selectedCategory }

/-- Claim C7: with the selected category resolved, `handleCategoryChange`
fails with the type-mismatch error (no API call, no local change) exactly
when the category's type differs from the required type — the
transaction's own type, except `expense` for refunds — and on success the
local transaction is patched with exactly `category_id` and `category`,
every other field unchanged. -/
theorem changeCategory_correct (categories : List Category) (transaction : Transaction)
    (newCategoryId : Nat) (cat : Category)
    (hfind : categories.find? (fun c => decide (c.id = newCategoryId)) = some cat) :
    (cat.type ≠ requiredCategoryType transaction.type →
      handleCategoryChange categories transaction newCategoryId = .error .typeMismatch) ∧
    (cat.type = requiredCategoryType transaction.type →
      handleCategoryChange categories transaction newCategoryId =
        .ok { transaction with category_id := some newCategoryId, category := some cat } ∧
      ∀ patched, handleCategoryChange categories transaction newCategoryId = .ok patched →
        patched.category_id = some newCategoryId ∧ patched.category = some cat ∧
        patched.id = transaction.id ∧
        patched.transaction_id = transaction.transaction_id ∧
        patched.amount = transaction.amount ∧
        patched.type = transaction.type ∧
        patched.bank_account_id = transaction.bank_account_id ∧
        patched.destination_bank_account_id = transaction.destination_bank_account_id ∧
        patched.parent_transaction_id = transaction.parent_transaction_id ∧
        patched.description = transaction.description ∧
        patched.date = transaction.date) := by
  have hcc : handleCategoryChange categories transaction newCategoryId =
      if cat.type ≠ requiredCategoryType transaction.type then .error .typeMismatch
      else .ok { transaction with
                  category_id := some newCategoryId, category := some cat } := by
    unfold handleCategoryChange requiredCategoryType
    rw [hfind]
    by_cases hr : transaction.type = .refund <;> simp [hr]
  constructor
  · intro hne
    rw [hcc, if_pos hne]
  · intro heq
    rw [hcc, if_neg (not_not.mpr heq)]
    refine ⟨rfl, ?_⟩
    intro patched hpatched
    rw [← (Except.ok.injEq _ _).mp hpatched]
    exact ⟨rfl, rfl, rfl, rfl, rfl, rfl, rfl, rfl, rfl, rfl, rfl⟩

/-- Witness for Claim C7: assigning expense category 4 to a refund child
succeeds (refund-child exception) and patches exactly `category_id` and
`category`. -/
theorem changeCategory_correct_witness :
    handleCategoryChange [⟨4, "groceries", TxType.expense⟩]
      ⟨31, none, (9 : Rat), TxType.refund, 1, none, some 2, none, some 30, none,
        "2024-01-05"⟩ 4 =
      .ok ⟨31, none, (9 : Rat), TxType.refund, 1, none, some 4,
        some ⟨4, "groceries", TxType.expense⟩, some 30, none, "2024-01-05"⟩ :=
  ((changeCategory_correct [⟨4, "groceries", TxType.expense⟩]
      ⟨31, none, (9 : Rat), TxType.refund, 1, none, some 2, none, some 30, none,
        "2024-01-05"⟩ 4 ⟨4, "groceries", TxType.expense⟩ rfl).2 rfl).1

/-! ## Deletion (`handleDeleteTransaction`, `handleDeleteGroup`, API client) -/

/-- A delete request as issued by the API client: `deleteTransaction`
(no flag) or `deleteTransactionCascade` (`?cascade=true`). -/
structure DeleteCall where
  id : Nat
  cascade : Bool
deriving DecidableEq, Repr

/-- URL built by the API client for a delete call:
`/api/transactions/{id}` with `?cascade=true` appended exactly for the
cascade variant. -/
def deleteTransactionPath (call : DeleteCall) : String :=
  "/api/transactions/" ++ toString call.id ++
    (if call.cascade then "?cascade=true" else "")

/-- `RefundGroupResponse` from `lib/types.ts`, restricted to the fields
the delete handler reads. -/
structure RefundGroupResponse where
  parent : Transaction
  children : List Transaction
deriving DecidableEq, Repr

/-- The delete call issued by `handleDeleteTransaction` of `app/page.tsx`
(after the user confirms): cascade for a detected refund parent, plain
otherwise. -/
def handleDeleteTransaction (transaction : Transaction) : DeleteCall :=
  if transaction.type = .refund ∧ transaction.parent_transaction_id = none
  then ⟨transaction.id, true⟩
  else ⟨transaction.id, false⟩

/-- The delete call issued by `handleDeleteGroup` of
`app/refunds/page.tsx`: always the cascade variant on the group's
parent. -/
def handleDeleteGroup (group : RefundGroupResponse) : DeleteCall :=
  ⟨group.parent.id, true⟩

/-- Claim C8: deleting a detected refund parent always issues the
cascade-flagged delete (`?cascade=true`), every other transaction gets the
plain delete without the flag, and the refunds page always deletes a group
through the cascade call on its parent. -/
theorem delete_cascade_correct (transaction : Transaction) (group : RefundGroupResponse) :
    (transaction.type = .refund ∧ transaction.parent_transaction_id = none →
      handleDeleteTransaction transaction = ⟨transaction.id, true⟩ ∧
      deleteTransactionPath (handleDeleteTransaction transaction) =
        "/api/transactions/" ++ toString transaction.id ++ "?cascade=true") ∧
    (¬ (transaction.type = .refund ∧ transaction.parent_transaction_id = none) →
      handleDeleteTransaction transaction = ⟨transaction.id, false⟩ ∧
      deleteTransactionPath (handleDeleteTransaction transaction) =
        "/api/transactions/" ++ toString transaction.id ++ "") ∧
    handleDeleteGroup group = ⟨group.parent.id, true⟩ := by
  refine ⟨?_, ?_, rfl⟩
  · intro h
    rw [handleDeleteTransaction, if_pos h]
    exact ⟨rfl, rfl⟩
  · intro h
    rw [handleDeleteTransaction, if_neg h]
    exact ⟨rfl, rfl⟩

/-- Witness for Claim C8: a refund parent's delete goes through the
cascade URL; a plain expense's delete does not. -/
theorem delete_cascade_correct_witness :
    deleteTransactionPath (handleDeleteTransaction
      ⟨40, none, (5 : Rat), TxType.refund, 1, none, none, none, none, none,
        "2024-01-06"⟩) = "/api/transactions/40?cascade=true" ∧
    deleteTransactionPath (handleDeleteTransaction
      ⟨41, none, (5 : Rat), TxType.expense, 1, none, some 2, none, none, none,
        "2024-01-06"⟩) = "/api/transactions/41" := by
  constructor
  · have h := (delete_cascade_correct
      ⟨40, none, (5 : Rat), TxType.refund, 1, none, none, none, none, none, "2024-01-06"⟩
      ⟨⟨40, none, (5 : Rat), TxType.refund, 1, none, none, none, none, none,
        "2024-01-06"⟩, []⟩).1 ⟨rfl, rfl⟩
    exact h.2
  · have h := (delete_cascade_correct
      ⟨41, none, (5 : Rat), TxType.expense, 1, none, some 2, none, none, none, "2024-01-06"⟩
      ⟨⟨41, none, (5 : Rat), TxType.expense, 1, none, some 2, none, none, none,
        "2024-01-06"⟩, []⟩).2.1 (by simp)
    exact h.2

/-! ## Draft child removal (`removeDraftChild` of `app/refunds/page.tsx`) -/

/-- The fresh child `{amount: 0, category_id: 0, description: ''}` that
replaces an emptied draft children list. -/
def freshRefundChild : RefundChildInput :=
  ⟨none, 0, 0, some "", none⟩

/-- `removeDraftChild` of `app/refunds/page.tsx`, restricted to the
children list it rewrites: drops the child at the given index
(`filter((_, idx) => idx !== index)`) and falls back to a single fresh
child when that leaves the list empty. -/
def removeDraftChild (children : List RefundChildInput) (index : Nat) :
    List RefundChildInput :=
  let nextChildren := (children.enum.filter (fun p => p.1 != index)).map (fun p => p.2)
  if nextChildren.length > 0 then nextChildren else [freshRefundChild]

/-- Claim C9: a removal never leaves a draft's children list empty — the
result always has length at least 1 — and removing the only remaining
child replaces the list with the single fresh child
`{amount: 0, category_id: 0, description: ''}`. -/
theorem removeDraftChild_never_empty (children : List RefundChildInput) (index : Nat) :
    1 ≤ (removeDraftChild children index).length ∧
    ∀ c : RefundChildInput, removeDraftChild [c] 0 = [freshRefundChild] := by
  constructor
  · simp only [removeDraftChild]
    split
    · omega
    · simp
  · intro c
    rfl

/-! ## Dashboard visibility and select-all (`app/page.tsx`) -/

/-- `visibleTransactions` memo of `app/page.tsx`:
`transactions.filter(tx => !(tx.type === 'refund' &&
tx.parent_transaction_id != null))`. -/
def visibleTransactions (transactions : List Transaction) : List Transaction :=
  transactions.filter
    (fun tx => !(decide (tx.type = .refund) && tx.parent_transaction_id.isSome))

/-- The id set built by `handleSelectAll(true)`:
`new Set(visibleTransactions.map(tx => tx.id))`, modelled as the id
list. -/
def handleSelectAllTrue (transactions : List Transaction) : List Nat :=
  (visibleTransactions transactions).map (fun tx => tx.id)

/-- Claim C10: refund children (type refund with a non-null parent) are
excluded from the dashboard's visible top-level list; select-all selects
exactly the ids of the visible transactions; hence, when transaction ids
are unique, a refund child's id is never added to the bulk-delete
selection by select-all. -/
theorem refund_children_hidden (transactions : List Transaction) :
    (∀ tx ∈ transactions, tx.type = .refund → tx.parent_transaction_id ≠ none →
      tx ∉ visibleTransactions transactions) ∧
    (∀ i : Nat, i ∈ handleSelectAllTrue transactions ↔
      ∃ tx, tx ∈ visibleTransactions transactions ∧ tx.id = i) ∧
    ((transactions.map (fun tx => tx.id)).Nodup →
      ∀ tx ∈ transactions, tx.type = .refund → tx.parent_transaction_id ≠ none →
      tx.id ∉ handleSelectAllTrue transactions) := by
  have hvis : ∀ tx, tx ∈ visibleTransactions transactions ↔
      tx ∈ transactions ∧ ¬ (tx.type = .refund ∧ tx.parent_transaction_id ≠ none) := by
    intro tx
    unfold visibleTransactions
    rw [List.mem_filter]
    constructor
    · rintro ⟨hmem, hp⟩
      refine ⟨hmem, ?_⟩
      rintro ⟨ht, hparent⟩
      simp [ht, Option.ne_none_iff_isSome.mp hparent] at hp
    · rintro ⟨hmem, hnot⟩
      refine ⟨hmem, ?_⟩
      by_cases ht : tx.type = .refund
      · have hparent : tx.parent_transaction_id = none := by
          by_contra hne
          exact hnot ⟨ht, hne⟩
        simp [ht, hparent]
      · simp [ht]
  refine ⟨?_, ?_, ?_⟩
  · intro tx hmem ht hparent hin
    exact ((hvis tx).mp hin).2 ⟨ht, hparent⟩
  · intro i
    unfold handleSelectAllTrue
    rw [List.mem_map]
  · intro hnodup tx hmem ht hparent hin
    obtain ⟨v, hvmem, hvid⟩ := List.mem_map.mp hin
    have hvtx : v ∈ transactions := ((hvis v).mp hvmem).1
    have : v = tx := List.inj_on_of_nodup_map hnodup hvtx hmem hvid
    subst this
    exact ((hvis v).mp hvmem).2 ⟨ht, hparent⟩

/-- Witness for Claim C10: with a refund parent (id 1), its refund child
(id 2) and an expense (id 3), select-all selects ids 1 and 3 and never the
child's id 2. -/
theorem refund_children_hidden_witness :
    (2 : Nat) ∉ handleSelectAllTrue
      [⟨1, none, (10 : Rat), TxType.refund, 1, none, none, none, none, none, "2024-01-07"⟩,
       ⟨2, none, (10 : Rat), TxType.refund, 1, none, some 4, none, some 1, none,
         "2024-01-07"⟩,
       ⟨3, none, (7 : Rat), TxType.expense, 1, none, some 4, none, none, none,
         "2024-01-07"⟩] :=
  (refund_children_hidden
      [⟨1, none, (10 : Rat), TxType.refund, 1, none, none, none, none, none, "2024-01-07"⟩,
       ⟨2, none, (10 : Rat), TxType.refund, 1, none, some 4, none, some 1, none,
         "2024-01-07"⟩,
       ⟨3, none, (7 : Rat), TxType.expense, 1, none, some 4, none, none, none,
         "2024-01-07"⟩]).2.2 (by decide)
    ⟨2, none, (10 : Rat), TxType.refund, 1, none, some 4, none, some 1, none, "2024-01-07"⟩
    (by decide) rfl (by decide)

end ExpenseFrontend
